import Mathlib

/-!
A verification development for the OpenVDB archive I/O engine
(`openvdb/io/Archive.cc` and `openvdb/Grid.cc`).

The C++ sources are shallowly embedded as executable Lean definitions:
machine integers become `Nat` with explicit `% 2^32` where 32-bit overflow
can occur, byte streams become `List Nat` (each element a byte value),
C++ exceptions become `Except`-style results that also carry the state
mutated before the throw (mirroring the fact that a C++ exception leaves
already-performed member assignments in place), and calls into external
collaborators (grid/tree serialization routines) become labelled events
driven by an arbitrary failure oracle.
-/

namespace OpenVDB

/-! ## Constants

Numeric constants used by `Archive.cc`.  The compression bit values come
from the library's `Compression.h` (`COMPRESS_NONE = 0`, `COMPRESS_ZIP =
0x1`, `COMPRESS_ACTIVE_MASK = 0x2`, `COMPRESS_BLOSC = 0x4`) and the file
format version numbers from `version.h`; both headers are collaborators of
the translated sources. -/

def COMPRESS_NONE : Nat := 0
def COMPRESS_ZIP : Nat := 1
def COMPRESS_ACTIVE_MASK : Nat := 2
def COMPRESS_BLOSC : Nat := 4

/-- Default archive compression flags.  `Archive.cc` selects
`COMPRESS_BLOSC | COMPRESS_ACTIVE_MASK` when the library is built with
Blosc support (the standard configuration, assumed here). -/
def DEFAULT_COMPRESSION_FLAGS : Nat := COMPRESS_BLOSC ||| COMPRESS_ACTIVE_MASK

def OPENVDB_FILE_VERSION_GRID_INSTANCING : Nat := 216
def OPENVDB_FILE_VERSION_BOOST_UUID : Nat := 218
def OPENVDB_FILE_VERSION_NO_GRIDMAP : Nat := 219
def OPENVDB_FILE_VERSION_SELECTIVE_COMPRESSION : Nat := 220
def OPENVDB_FILE_VERSION_NODE_MASK_COMPRESSION : Nat := 222
def OPENVDB_FILE_VERSION_BLOSC_COMPRESSION : Nat := 223

/-- The current file format version written by this library version. -/
def OPENVDB_FILE_VERSION : Nat := 224

/-- The 64-bit magic number compared against the first eight bytes of an
archive (the 32-bit constant `0x56444220`, zero-extended to 64 bits by the
comparison in `Archive::readHeader`). -/
def OPENVDB_MAGIC : Nat := 0x56444220

/-! ## Grid classes (`Grid.cc`) -/

/-- The `GridClass` enum: `GRID_UNKNOWN, GRID_LEVEL_SET, GRID_FOG_VOLUME,
GRID_STAGGERED`. -/
inductive GridClass where
  | unknown
  | levelSet
  | fogVolume
  | staggered
deriving DecidableEq

/-- Numeric code of a `GridClass` enumerator (`GRID_UNKNOWN = 0`, ...). -/
def GridClass.code : GridClass → Nat
  | .unknown => 0
  | .levelSet => 1
  | .fogVolume => 2
  | .staggered => 3

/-- `NUM_GRID_CLASSES` from the `GridClass` enum declaration. -/
def NUM_GRID_CLASSES : Nat := 4

/-- Numeric value of `GRID_UNKNOWN`. -/
def GRID_UNKNOWN : Nat := 0

/-- ASCII lowercasing of one character, as `std::tolower` acts on the
ASCII strings involved. Modelled from the spec: `openvdb::string::to_lower`
(in `util/Name.h`, not part of the translated sources) lowercases each
character in place. -/
def toLowerChar (c : Char) : Char :=
  if 'A' ≤ c ∧ c ≤ 'Z' then Char.ofNat (c.toNat + 32) else c

/-- Whitespace test used by trimming. -/
def isSpaceChar (c : Char) : Bool :=
  c = ' ' ∨ c = '\t' ∨ c = '\n' ∨ c = '\x0d' ∨ c = '\x0b' ∨ c = '\x0c'

/-- Modelled from the spec: `openvdb::string::trim` (in `util/Name.h`,
not part of the translated sources) removes leading and trailing
whitespace. -/
def strTrim (s : String) : String :=
  String.mk (((s.toList.dropWhile isSpaceChar).reverse.dropWhile isSpaceChar).reverse)

/-- Lowercase every character of a string. -/
def strToLower (s : String) : String :=
  String.mk (s.toList.map toLowerChar)

/-- `GridBase::gridClassToString` from `Grid.cc`. -/
def gridClassToString : GridClass → String
  | .unknown => "unknown"
  | .levelSet => "level set"
  | .fogVolume => "fog volume"
  | .staggered => "staggered"

/-- `GridBase::stringToGridClass` from `Grid.cc`: trim and lowercase the
input, then compare against the printed forms of the three non-default
classes. -/
def stringToGridClass (s : String) : GridClass :=
  let str := strToLower (strTrim s)
  if str = gridClassToString .levelSet then .levelSet
  else if str = gridClassToString .fogVolume then .fogVolume
  else if str = gridClassToString .staggered then .staggered
  else .unknown

/-! ## Per-stream auxiliary state

`Archive.cc` stores per-stream values in the stream's extensible
integer/pointer arrays (`iword`/`pword` at the indices of the process-wide
`StreamState` registry).  The slots actually read or written by the
translated functions are modelled as fields of `StreamSt`.  The
`StreamMetadata` pointer slot (`pword(GetSteamState().metadata)`) is
modelled as an optional object identifier; fresh `StreamMetadata` objects
receive identifiers from the `nextPtr` counter.  Bytes written by the
archive code itself are accumulated in `outWords` (one entry per 32-bit
word written), and calls into external collaborators are recorded in
`trace`. -/

/-- Labels for the external collaborator calls made during a per-grid read
or write (grid/tree/descriptor serialization routines). -/
inductive Ev where
  | readCompressionWord
  | readMeta
  | readTransform
  | readTopology
  | readBuffers
  | gdWriteHeader
  | gdWriteStreamPos
  | writeMeta
  | writeTransform
  | writeTopology
  | writeBuffers
deriving DecidableEq

/-- The modelled per-stream state. -/
structure StreamSt where
  /-- `pword(GetSteamState().metadata)`: the file-level `StreamMetadata`
  pointer slot. -/
  metaSlot : Option Nat
  /-- `iword(GetSteamState().gridClass)` (as `uint32_t`). -/
  gridClassW : Nat
  /-- `pword(GetSteamState().gridBackground)`. -/
  backgroundW : Option Nat
  /-- `iword(GetSteamState().dataCompression)` (as `uint32_t`). -/
  dataCompressionW : Nat
  /-- `iword(GetSteamState().fileVersion)` (as `uint32_t`). -/
  fileVersionW : Nat
  /-- Allocator for identities of freshly constructed `StreamMetadata`
  objects. -/
  nextPtr : Nat
  /-- 32-bit words written directly by archive code. -/
  outWords : List Nat
  /-- External collaborator calls performed so far, in order. -/
  trace : List Ev
deriving DecidableEq

/-- `io::getGridClass` from `Archive.cc`: read the grid-class word from
the stream and clamp out-of-range values to `GRID_UNKNOWN`. -/
def getGridClass (s : StreamSt) : Nat :=
  let val := s.gridClassW
  if NUM_GRID_CLASSES ≤ val then GRID_UNKNOWN else val

/-! ## Per-grid compression (`Archive::setGridCompression`) -/

/-- The compression word computed by `Archive::setGridCompression`: start
from the archive-level flags and clear `COMPRESS_ZIP` for level sets and
fog volumes (`c & ~COMPRESS_ZIP` on `uint32_t`, i.e. masking with
`0xFFFFFFFF ^^^ COMPRESS_ZIP`). -/
def setGridCompressionWord (c : Nat) (cls : GridClass) : Nat :=
  match cls with
  | .levelSet | .fogVolume => c &&& (0xFFFFFFFF ^^^ COMPRESS_ZIP)
  | .staggered | .unknown => c

/-- `Archive::setGridCompression` from `Archive.cc`: compute the per-grid
compression word, set it as the stream's data-compression state
(`io::setDataCompression`) and write the same 32-bit value to the
stream. -/
def setGridCompressionSt (archiveC : Nat) (cls : GridClass) (s : StreamSt) : StreamSt :=
  let c := setGridCompressionWord archiveC cls
  { s with dataCompressionW := c, outWords := s.outWords ++ [c] }

/-! ## Header reading (`Archive::readHeader`)

The input stream is a list of byte values; multi-byte integers are decoded
little-endian, as `is.read(reinterpret_cast<char*>(&x), sizeof x)` does on
the little-endian platforms the format targets.  A read that runs off the
end of the stream is modelled as an `ioError` (the spec's `IoError` kind:
"any underlying read/write or seek failure; propagates").  A C++ exception
leaves the member assignments already performed in place, so every
operation returns the mutated `Archive` alongside the error. -/

/-- Error kinds of the archive (spec section 7). `notAVdbFile` is the
`IoError` thrown with the message "not a VDB file";
`missingInstanceParent` is the `KeyError` thrown by
`Archive::connectInstance`; `nullParent` marks the undefined behaviour of
dereferencing a null instance-parent pointer. -/
inductive IoErr where
  | notAVdbFile
  | ioError
  | missingInstanceParent
  | nullParent
deriving DecidableEq

/-- The archive fields mutated by `Archive::readHeader`
(`mFileVersion`, `mLibraryVersion`, `mUuid`, `mInputHasGridOffsets`,
`mCompression`), plus the configuration flags. The UUID is kept as the
byte list of the stored C string. -/
structure Archive where
  mFileVersion : Nat
  mLibMajor : Nat
  mLibMinor : Nat
  mUuid : List Nat
  mInputHasGridOffsets : Bool
  mEnableInstancing : Bool
  mCompression : Nat
  mEnableGridStats : Bool
deriving DecidableEq

/-- Decode a little-endian 32-bit unsigned integer from the stream. -/
def readU32LE : List Nat → Option (Nat × List Nat)
  | b0 :: b1 :: b2 :: b3 :: rest =>
      some (b0 + 256 * b1 + 65536 * b2 + 16777216 * b3, rest)
  | _ => none

/-- Decode a little-endian 64-bit integer from the stream. -/
def readU64LE : List Nat → Option (Nat × List Nat)
  | b0 :: b1 :: b2 :: b3 :: b4 :: b5 :: b6 :: b7 :: rest =>
      some (b0 + 256 * b1 + 65536 * b2 + 16777216 * b3
            + 4294967296 * (b4 + 256 * b5 + 65536 * b6 + 16777216 * b7), rest)
  | _ => none

/-- Read a fixed-size chunk of bytes from the stream. -/
def readChunk (n : Nat) (bs : List Nat) : Option (List Nat × List Nat) :=
  if n ≤ bs.length then some (bs.take n, bs.drop n) else none

/-- Assigning a fixed-size `char` buffer to a `std::string` keeps the
bytes up to the first NUL terminator. -/
def cString (bs : List Nat) : List Nat := bs.takeWhile (fun b => b ≠ 0)

/-- The `to_hex` lambda of `Archive::readHeader`: low nibble to an
uppercase-hex ASCII code. -/
def toHexChar (c : Nat) : Nat :=
  let c := c % 16
  if c < 10 then 48 + c else c - 10 + 65

/-- Format 16 raw UUID bytes as 32 uppercase-hex ASCII codes, high nibble
first, as the pre-`BOOST_UUID` branch of `Archive::readHeader` does. -/
def hexify (bytes : List Nat) : List Nat :=
  (bytes.map (fun b => [toHexChar (b / 16), toHexChar b])).flatten

/-- Chain a header step with its continuation, propagating an error
together with the archive state mutated so far. -/
def hseq {α : Type} (r : Archive × Except IoErr (List Nat))
    (k : Archive → List Nat → Archive × Except IoErr α) : Archive × Except IoErr α :=
  match r with
  | (a, .error e) => (a, .error e)
  | (a, .ok bs) => k a bs

/-- Step 1 of `Archive::readHeader`: read the 64-bit magic number and
throw `notAVdbFile` unless it equals `OPENVDB_MAGIC`. -/
def stepMagic (a : Archive) (bs : List Nat) : Archive × Except IoErr (List Nat) :=
  match readU64LE bs with
  | none => (a, .error .ioError)
  | some (magic, bs1) =>
      if magic ≠ OPENVDB_MAGIC then (a, .error .notAVdbFile) else (a, .ok bs1)

/-- Step 2 of `Archive::readHeader`: read the 32-bit file format version;
versions below 211 stored separate major/minor/patch words which are
folded as `100*v1 + 10*v2 + v3` (in `uint32_t` arithmetic). -/
def stepVersion (a : Archive) (bs : List Nat) : Archive × Except IoErr (List Nat) :=
  match readU32LE bs with
  | none => (a, .error .ioError)
  | some (fv0, bs1) =>
      let a := { a with mFileVersion := fv0 }
      if fv0 < 211 then
        match readU32LE bs1 with
        | none => (a, .error .ioError)
        | some (v2, bs2) =>
            let a := { a with mFileVersion := (100 * fv0 + 10 * v2) % 4294967296 }
            match readU32LE bs2 with
            | none => (a, .error .ioError)
            | some (v3, bs3) =>
                ({ a with mFileVersion := (a.mFileVersion + v3) % 4294967296 }, .ok bs3)
      else (a, .ok bs1)

/-- Step 3 of `Archive::readHeader`: zero the library version, then read
the two 32-bit library version words for file versions ≥ 211. -/
def stepLibVersion (a : Archive) (bs : List Nat) : Archive × Except IoErr (List Nat) :=
  let a := { a with mLibMajor := 0, mLibMinor := 0 }
  if 211 ≤ a.mFileVersion then
    match readU32LE bs with
    | none => (a, .error .ioError)
    | some (major, bs1) =>
        let a := { a with mLibMajor := major }
        match readU32LE bs1 with
        | none => (a, .error .ioError)
        | some (minor, bs2) => ({ a with mLibMinor := minor }, .ok bs2)
  else (a, .ok bs)

/-- Step 4 of `Archive::readHeader`: the grid-offsets flag, read as one
byte for file versions ≥ 212 and defaulted to `true` otherwise. -/
def stepOffsets (a : Archive) (bs : List Nat) : Archive × Except IoErr (List Nat) :=
  let a := { a with mInputHasGridOffsets := true }
  if 212 ≤ a.mFileVersion then
    match bs with
    | [] => (a, .error .ioError)
    | b :: bs1 => ({ a with mInputHasGridOffsets := b ≠ 0 }, .ok bs1)
  else (a, .ok bs)

/-- Step 5 of `Archive::readHeader`: the compression flags.  Default to
`DEFAULT_COMPRESSION_FLAGS`; force `ZIP|ACTIVE_MASK` for versions before
Blosc; for versions in `[SELECTIVE_COMPRESSION, NODE_MASK_COMPRESSION)`
read one `isCompressed` byte and set `{ZIP}` or `{NONE}`. -/
def stepCompression (a : Archive) (bs : List Nat) : Archive × Except IoErr (List Nat) :=
  let a := { a with mCompression := DEFAULT_COMPRESSION_FLAGS }
  let a := if a.mFileVersion < OPENVDB_FILE_VERSION_BLOSC_COMPRESSION then
      { a with mCompression := COMPRESS_ZIP ||| COMPRESS_ACTIVE_MASK }
    else a
  if OPENVDB_FILE_VERSION_SELECTIVE_COMPRESSION ≤ a.mFileVersion ∧
      a.mFileVersion < OPENVDB_FILE_VERSION_NODE_MASK_COMPRESSION then
    match bs with
    | [] => (a, .error .ioError)
    | b :: bs1 =>
        ({ a with mCompression := if b ≠ 0 then COMPRESS_ZIP else COMPRESS_NONE }, .ok bs1)
  else (a, .ok bs)

/-- Step 6 of `Archive::readHeader`: the UUID.  Versions ≥ `BOOST_UUID`
store 36 ASCII characters (kept up to a NUL, as the buffer is assigned to
a `std::string`); older versions store 16 raw bytes which are formatted
as 32 uppercase-hex characters.  Returns the new-vs-old comparison
result. -/
def uuidReturn (old : List Nat) (a : Archive) (bs : List Nat) :
    Archive × Except IoErr (Bool × List Nat) :=
  if old = [] ∨ a.mUuid = [] then (a, .ok (true, bs))
  else (a, .ok (decide (old ≠ a.mUuid), bs))

def stepUuid (a : Archive) (bs : List Nat) : Archive × Except IoErr (Bool × List Nat) :=
  let oldUuid := a.mUuid
  if OPENVDB_FILE_VERSION_BOOST_UUID ≤ a.mFileVersion then
    match readChunk 36 bs with
    | none => (a, .error .ioError)
    | some (chunk, bs1) => uuidReturn oldUuid { a with mUuid := cString chunk } bs1
  else
    match readChunk 16 bs with
    | none => (a, .error .ioError)
    | some (chunk, bs1) => uuidReturn oldUuid { a with mUuid := hexify chunk } bs1

/-- Steps 2–6 of `Archive::readHeader` (everything after the magic
check). -/
def readHeaderRest (a : Archive) (bs : List Nat) : Archive × Except IoErr (Bool × List Nat) :=
  hseq (stepVersion a bs) fun a2 bs2 =>
  hseq (stepLibVersion a2 bs2) fun a3 bs3 =>
  hseq (stepOffsets a3 bs3) fun a4 bs4 =>
  hseq (stepCompression a4 bs4) fun a5 bs5 =>
  stepUuid a5 bs5

/-- `Archive::readHeader` from `Archive.cc`: the composition of the six
header steps.  On success the returned `Bool` reports whether the UUID
read differs from the archive's previous UUID. -/
def readHeader (a : Archive) (bs : List Nat) : Archive × Except IoErr (Bool × List Nat) :=
  hseq (stepMagic a bs) readHeaderRest

/-! ## Per-grid read and write (`doReadGrid`, `Archive::writeGrid`,
`Archive::writeGridInstance`)

External collaborator calls (grid/tree/descriptor serialization) are
modelled as labelled events whose success is decided by an arbitrary
failure oracle `fail : Ev → Bool`; a failing event models the collaborator
throwing a C++ exception at that point.  The `OnExit` guards of
`doReadGrid` and `Archive::writeGrid` capture the stream's
`StreamMetadata` pointer slot on entry and restore it when the scope is
left, on both the normal and the exceptional path; this is modelled by
wrapping the translated body and restoring `metaSlot` on the returned
state regardless of the result. -/

/-- Perform one external collaborator call: record the event and report
whether the oracle makes it throw. -/
def emit (fail : Ev → Bool) (e : Ev) (s : StreamSt) : StreamSt × Bool :=
  ({ s with trace := s.trace ++ [e] }, fail e)

/-- The body of `doReadGrid` (between construction and destruction of the
`OnExit` guard).  Grid-side-only effects (stripping stale
`DelayedLoadMetadata`, snapshotting the grid's metadata into the
grid-level `StreamMetadata` object, resetting its leaf counter, copying
the descriptor name into old-format grids) do not touch the stream state
and are not modelled.  `gridCls` is the value of `grid->getGridClass()`
after the metadata has been read. -/
def doReadGridBody (fail : Ev → Bool) (isInst : Bool) (gridCls : Nat)
    (s : StreamSt) : StreamSt × Except IoErr Unit :=
  -- make a grid-level copy of the file-level StreamMetadata and bind it
  -- (setStreamMetadataPtr with transfer = false)
  let s := { s with metaSlot := some s.nextPtr, nextPtr := s.nextPtr + 1 }
  -- io::setGridClass(is, GRID_UNKNOWN); io::setGridBackgroundValuePtr(is, nullptr)
  let s := { s with gridClassW := GRID_UNKNOWN, backgroundW := none }
  -- grid->readMeta(is)
  let (s, t) := emit fail .readMeta s
  if t then (s, .error .ioError) else
  -- io::setGridClass(is, grid->getGridClass())
  let s := { s with gridClassW := gridCls }
  if OPENVDB_FILE_VERSION_GRID_INSTANCING ≤ s.fileVersionW then
    let (s, t) := emit fail .readTransform s
    if t then (s, .error .ioError) else
    if isInst then (s, .ok ()) else
    let (s, t) := emit fail .readTopology s
    if t then (s, .error .ioError) else
    let (s, t) := emit fail .readBuffers s
    if t then (s, .error .ioError) else (s, .ok ())
  else
    -- older layout: topology, then transform, then buffers
    let (s, t) := emit fail .readTopology s
    if t then (s, .error .ioError) else
    let (s, t) := emit fail .readTransform s
    if t then (s, .error .ioError) else
    let (s, t) := emit fail .readBuffers s
    if t then (s, .error .ioError) else (s, .ok ())

/-- `doReadGrid` from `Archive.cc`: the body wrapped in the `OnExit`
guard that restores the file-level `StreamMetadata` pointer slot on every
exit path. -/
def doReadGrid (fail : Ev → Bool) (isInst : Bool) (gridCls : Nat)
    (s0 : StreamSt) : StreamSt × Except IoErr Unit :=
  let saved := s0.metaSlot
  let (s1, r) := doReadGridBody fail isInst gridCls s0
  ({ s1 with metaSlot := saved }, r)

/-- `Archive::readGridCompression` from `Archive.cc`: for format
versions with per-grid compression, read one 32-bit word from the stream
(`c` is the value read, supplied as a parameter since payload bytes are
not modelled here) and set it as the stream's data-compression state. -/
def readGridCompression (fail : Ev → Bool) (c : Nat) (s : StreamSt) :
    StreamSt × Except IoErr Unit :=
  if OPENVDB_FILE_VERSION_NODE_MASK_COMPRESSION ≤ s.fileVersionW then
    let (s, t) := emit fail .readCompressionWord s
    if t then (s, .error .ioError) else ({ s with dataCompressionW := c }, .ok ())
  else (s, .ok ())

/-- `Archive::readGrid` from `Archive.cc`: read the per-grid compression
settings, then dispatch to `doReadGrid`. -/
def readGrid (fail : Ev → Bool) (isInst : Bool) (gridCls : Nat) (c : Nat)
    (s : StreamSt) : StreamSt × Except IoErr Unit :=
  match readGridCompression fail c s with
  | (s1, .error e) => (s1, .error e)
  | (s1, .ok _) => doReadGrid fail isInst gridCls s1

/-- The body of `Archive::writeGrid` (inside its `OnExit` guard).
Grid-side-only effects (the shallow grid copy, delayed-load metadata
population, stats metadata) do not touch the stream state and are not
modelled; seek positions are not modelled beyond the repeated descriptor
offset writes. -/
def writeGridBody (fail : Ev → Bool) (seekable : Bool) (cls : GridClass)
    (archiveC : Nat) (s : StreamSt) : StreamSt × Except IoErr Unit :=
  -- make a grid-level copy of the file-level StreamMetadata and bind it
  let s := { s with metaSlot := some s.nextPtr, nextPtr := s.nextPtr + 1 }
  -- gd.writeHeader(os)
  let (s, t) := emit fail .gdWriteHeader s
  if t then (s, .error .ioError) else
  -- gd.writeStreamPos(os): placeholder offsets
  let (s, t) := emit fail .gdWriteStreamPos s
  if t then (s, .error .ioError) else
  -- setGridCompression(os, *grid)
  let s := setGridCompressionSt archiveC cls s
  -- copyOfGrid->writeMeta(os); grid->writeTransform(os)
  let (s, t) := emit fail .writeMeta s
  if t then (s, .error .ioError) else
  let (s, t) := emit fail .writeTransform s
  if t then (s, .error .ioError) else
  -- grid->writeTopology(os); grid->writeBuffers(os)
  let (s, t) := emit fail .writeTopology s
  if t then (s, .error .ioError) else
  let (s, t) := emit fail .writeBuffers s
  if t then (s, .error .ioError) else
  if seekable then
    -- seek back and rewrite the descriptor offsets, then seek to the end
    let (s, t) := emit fail .gdWriteStreamPos s
    if t then (s, .error .ioError) else (s, .ok ())
  else (s, .ok ())

/-- `Archive::writeGrid` from `Archive.cc`: the body wrapped in the
`OnExit` guard restoring the file-level `StreamMetadata` pointer slot. -/
def writeGrid (fail : Ev → Bool) (seekable : Bool) (cls : GridClass)
    (archiveC : Nat) (s0 : StreamSt) : StreamSt × Except IoErr Unit :=
  let saved := s0.metaSlot
  let (s1, r) := writeGridBody fail seekable cls archiveC s0
  ({ s1 with metaSlot := saved }, r)

/-- `Archive::writeGridInstance` from `Archive.cc`: descriptor header,
placeholder offsets, per-grid compression, metadata and transform only
(no topology or buffers), with the seekable offset back-patching.  It
installs no `OnExit` guard and never touches the `StreamMetadata`
pointer slot. -/
def writeGridInstance (fail : Ev → Bool) (seekable : Bool) (cls : GridClass)
    (archiveC : Nat) (s : StreamSt) : StreamSt × Except IoErr Unit :=
  let (s, t) := emit fail .gdWriteHeader s
  if t then (s, .error .ioError) else
  let (s, t) := emit fail .gdWriteStreamPos s
  if t then (s, .error .ioError) else
  let s := setGridCompressionSt archiveC cls s
  let (s, t) := emit fail .writeMeta s
  if t then (s, .error .ioError) else
  let (s, t) := emit fail .writeTransform s
  if t then (s, .error .ioError) else
  if seekable then
    let (s, t) := emit fail .gdWriteStreamPos s
    if t then (s, .error .ioError) else (s, .ok ())
  else (s, .ok ())

/-! ## Grid write loop (`Archive::write`)

Grids are identified for the instancing test by the address of their tree
(`&grid->baseTree()`), modelled as a `Nat` identifier with pointer
equality.  The `tree → descriptor` map (`std::map<const TreeBase*,
GridDescriptor>`) is modelled as an association list with first-match
lookup and in-place overwrite on insertion. -/

/-- The attributes of a grid consumed by `Archive::write`. -/
structure WGrid where
  name : String
  gtype : String
  half : Bool
  treeId : Nat
deriving DecidableEq

/-- The `GridDescriptor` collaborator (interface only): grid name, type
tag, half-float flag and instance-parent name. -/
structure GDescr where
  uniqueName : String
  gridType : String
  half : Bool
  instanceParentName : String
deriving DecidableEq

/-- Modelled from the spec: `GridDescriptor::isInstance` — a descriptor
marks an instance when it names an instance parent. -/
def GDescr.isInst (gd : GDescr) : Bool := gd.instanceParentName ≠ ""

/-- Modelled from the spec: `GridDescriptor::addSuffix` appends a numeric
suffix (`name[n]`) to a grid name. -/
def addSuffix (name : String) (n : Nat) : String :=
  name ++ "[" ++ toString n ++ "]"

/-- First-match lookup in the `tree → descriptor` map. -/
def tmLookup : List (Nat × GDescr) → Nat → Option GDescr
  | [], _ => none
  | (k, v) :: rest, key => if k = key then some v else tmLookup rest key

/-- Insertion (`treeMap[treePtr] = gd`): overwrite the existing binding
or append a new one. -/
def tmInsert : List (Nat × GDescr) → Nat → GDescr → List (Nat × GDescr)
  | [], key, gd => [(key, gd)]
  | (k, v) :: rest, key, gd =>
      if k = key then (key, gd) :: rest else (k, v) :: tmInsert rest key gd

/-- Count lookup in the name histogram (`nameCount[name]`, which is zero
for absent names). -/
def histCount : List (String × Nat) → String → Nat
  | [], _ => 0
  | (k, v) :: rest, key => if k = key then v else histCount rest key

/-- Add one occurrence of a name to the histogram. -/
def histAdd : List (String × Nat) → String → List (String × Nat)
  | [], key => [(key, 1)]
  | (k, v) :: rest, key =>
      if k = key then (k, v + 1) :: rest else (k, v) :: histAdd rest key

/-- The name histogram of the non-null grids
(`Archive::write`, "Determine which grid names are unique"). -/
def nameHistogram (grids : List (Option WGrid)) : List (String × Nat) :=
  grids.foldl
    (fun h og => match og with
      | none => h
      | some g => histAdd h g.name) []

/-- The `for (int n = 1; uniqueNames.find(name) != uniqueNames.end(); ++n)`
retry loop of `Archive::write`, with fuel bounding the number of
iterations (`used.length + 2` suffices because the candidate names are
pairwise distinct). -/
def freshNameLoop (base : String) (used : List String) :
    Nat → Nat → String → String
  | 0, _, cur => cur
  | fuel + 1, n, cur =>
      if cur ∈ used then freshNameLoop base used fuel (n + 1) (addSuffix base n)
      else cur

/-- The unique-descriptor-name computation of `Archive::write`: append
suffix `0` when the base name is empty or shared by several grids, then
retry with increasing suffixes until the name is unused. -/
def chooseUniqueName (counts : List (String × Nat)) (used : List String)
    (base : String) : String :=
  let name0 := if base = "" ∨ 1 < histCount counts base then addSuffix base 0 else base
  freshNameLoop base used (used.length + 2) 1 name0

/-- How the payload of one grid was written. -/
inductive WriteKind where
  | asPrimary
  | asInstance
deriving DecidableEq

/-- The evolving state of the `Archive::write` grid loop. -/
structure WState where
  treeMap : List (Nat × GDescr)
  uniqueNames : List String
  written : List (GDescr × WriteKind)
deriving DecidableEq

/-- One iteration of the `Archive::write` grid loop for a non-null grid:
compute the unique descriptor name, build the descriptor, and decide
between the instance path (descriptor gains the parent's unique name;
payload via `Archive::writeGridInstance`) and the primary path (payload
via `Archive::writeGrid`; tree pointer recorded in the map).  The
per-iteration restoration of the archive-level compression acts on the
stream, not on this state. -/
def writeOneGrid (enable : Bool) (counts : List (String × Nat))
    (st : WState) (g : WGrid) : WState :=
  let name := chooseUniqueName counts st.uniqueNames g.name
  let used := st.uniqueNames ++ [name]
  let gd : GDescr :=
    { uniqueName := name, gridType := g.gtype, half := g.half,
      instanceParentName := "" }
  -- isInstance = (mapIter != treeMap.end())
  --     && (mapIter->second.saveFloatAsHalf() == gd.saveFloatAsHalf())
  match tmLookup st.treeMap g.treeId with
  | some d =>
      if enable && (d.half == gd.half) then
        { st with uniqueNames := used,
                  written := st.written ++
                    [({ gd with instanceParentName := d.uniqueName }, .asInstance)] }
      else
        { st with uniqueNames := used,
                  written := st.written ++ [(gd, .asPrimary)],
                  treeMap := tmInsert st.treeMap g.treeId gd }
  | none =>
      { st with uniqueNames := used,
                written := st.written ++ [(gd, .asPrimary)],
                treeMap := tmInsert st.treeMap g.treeId gd }

/-- The grid loop of `Archive::write`: process the non-null grids in
input order. -/
def archiveWriteGrids (enable : Bool) (grids : List (Option WGrid)) : WState :=
  let counts := nameHistogram grids
  grids.foldl
    (fun st og => match og with
      | none => st
      | some g => writeOneGrid enable counts st g)
    { treeMap := [], uniqueNames := [], written := [] }

/-! ## Instance reconnection (`Archive::connectInstance`)

Grids here are their tree pointers (`Nat` identities); tree contents live
in a heap so that sharing (pointer equality) and deep copying (a fresh
pointer with equal contents) are distinguishable.  Dereferencing a null
`GridBase::Ptr` parent is undefined behaviour in the source and is
modelled as the `nullParent` error. -/

/-- A grid as seen by `connectInstance`: just its tree pointer. -/
structure RGrid where
  treeId : Nat
deriving DecidableEq

/-- The heap of tree objects: contents per tree pointer, plus the next
fresh pointer. -/
structure TreeHeap where
  contents : List (Nat × Nat)
  next : Nat
deriving DecidableEq

/-- First-match lookup of a tree's contents. -/
def thLookup : List (Nat × Nat) → Nat → Option Nat
  | [], _ => none
  | (k, v) :: rest, key => if k = key then some v else thLookup rest key

/-- `tree.copy()`: allocate a fresh tree pointer with the same
contents. -/
def thCopy (h : TreeHeap) (src : Nat) : Nat × TreeHeap :=
  (h.next,
   { contents := (h.next, (thLookup h.contents src).getD 0) :: h.contents,
     next := h.next + 1 })

/-- First-match lookup in the name → grid-pointer map
(`Archive::NamedGridMap`; entries may hold null pointers). -/
def ngLookup : List (String × Option RGrid) → String → Option (Option RGrid)
  | [], _ => none
  | (k, v) :: rest, key => if k = key then some v else ngLookup rest key

/-- The outcome of `Archive::connectInstance`: either no grid was
modified, or the instance grid's tree pointer was reassigned (and the
heap possibly extended by a copy). -/
inductive ConnectResult where
  | noop
  | connected (g : RGrid) (h : TreeHeap)
deriving DecidableEq

/-- `Archive::connectInstance` from `Archive.cc`: for an instance
descriptor, look up the instance grid by unique name and the parent by
instance-parent name; share the parent's tree when instancing is enabled,
deep-copy it otherwise; throw the missing-instance-parent `KeyError` when
the parent name is absent. -/
def connectInstance (enable : Bool) (gd : GDescr)
    (grids : List (String × Option RGrid)) (heap : TreeHeap) :
    Except IoErr ConnectResult :=
  if ¬ gd.isInst ∨ grids = [] then .ok .noop else
  match ngLookup grids gd.uniqueName with
  | none => .ok .noop
  | some none => .ok .noop
  | some (some grid) =>
      match ngLookup grids gd.instanceParentName with
      | some parentPtr =>
          match parentPtr with
          | none => .error .nullParent
          | some parent =>
              if enable then
                -- grid->setTree(parent->baseTreePtr())
                .ok (.connected { grid with treeId := parent.treeId } heap)
              else
                -- grid->setTree(parent->baseTree().copy())
                let (fresh, heap1) := thCopy heap parent.treeId
                .ok (.connected { grid with treeId := fresh } heap1)
      | none => .error .missingInstanceParent

/-! ## Theorems -/

/-- Bit `i` of the 32-bit complement mask `~COMPRESS_ZIP`. -/
lemma testBit_zipMask (i : Nat) :
    Nat.testBit (0xFFFFFFFF ^^^ COMPRESS_ZIP) i = (decide (i < 32) ^^ decide (0 = i)) := by
  have h1 : (0xFFFFFFFF : Nat) = 2 ^ 32 - 1 := by norm_num
  have h2 : COMPRESS_ZIP = 2 ^ 0 := rfl
  rw [Nat.testBit_xor, h1, h2, Nat.testBit_two_pow_sub_one, Nat.testBit_two_pow]

/-- C9: `GridBase::gridClassToString` maps the four grid classes to
exactly `"unknown"`, `"level set"`, `"fog volume"`, `"staggered"`, and
`stringToGridClass` inverts it on every grid class. -/
theorem gridClass_string_roundtrip :
    (gridClassToString .unknown = "unknown" ∧
     gridClassToString .levelSet = "level set" ∧
     gridClassToString .fogVolume = "fog volume" ∧
     gridClassToString .staggered = "staggered") ∧
    ∀ c : GridClass, stringToGridClass (gridClassToString c) = c := by
  refine ⟨⟨rfl, rfl, rfl, rfl⟩, ?_⟩
  intro c
  cases c <;> decide

/-- C10: `io::getGridClass` always returns a value below
`NUM_GRID_CLASSES`, and returns `GRID_UNKNOWN` whenever the word stored
in the stream's grid-class slot is out of range. -/
theorem getGridClass_in_range (s : StreamSt) :
    getGridClass s < NUM_GRID_CLASSES ∧
    (NUM_GRID_CLASSES ≤ s.gridClassW → getGridClass s = GRID_UNKNOWN) := by
  constructor
  · show (if NUM_GRID_CLASSES ≤ s.gridClassW then GRID_UNKNOWN else s.gridClassW) <
      NUM_GRID_CLASSES
    split
    · decide
    · omega
  · intro h
    show (if NUM_GRID_CLASSES ≤ s.gridClassW then GRID_UNKNOWN else s.gridClassW) =
      GRID_UNKNOWN
    rw [if_pos h]

/-- C10 witness: a slot value that no grid class uses is clamped to
`GRID_UNKNOWN`. -/
theorem getGridClass_in_range_witness :
    getGridClass { metaSlot := none, gridClassW := 7, backgroundW := none,
                   dataCompressionW := 0, fileVersionW := 224, nextPtr := 0,
                   outWords := [], trace := [] } = GRID_UNKNOWN :=
  (getGridClass_in_range _).2 (by decide)

/-- C3: `Archive::setGridCompression` writes one word to the stream and
sets it as the stream's data-compression state; for level sets and fog
volumes that word is the archive-level flags with the `ZIP` bit cleared
(and no other bit changed), while for staggered and unknown grids it is
exactly the archive-level flags. -/
theorem setGridCompression_spec (archiveC : Nat) (cls : GridClass) (s : StreamSt)
    (hC : archiveC < 4294967296) :
    (setGridCompressionSt archiveC cls s).dataCompressionW =
        setGridCompressionWord archiveC cls ∧
    (setGridCompressionSt archiveC cls s).outWords =
        s.outWords ++ [setGridCompressionWord archiveC cls] ∧
    ((cls = .levelSet ∨ cls = .fogVolume) →
       ∀ i, (setGridCompressionWord archiveC cls).testBit i =
              (archiveC.testBit i && decide (i ≠ 0))) ∧
    ((cls = .staggered ∨ cls = .unknown) →
       setGridCompressionWord archiveC cls = archiveC) := by
  refine ⟨rfl, rfl, ?_, ?_⟩
  · rintro (rfl | rfl) i <;>
    · show Nat.testBit (archiveC &&& (0xFFFFFFFF ^^^ COMPRESS_ZIP)) i = _
      rw [Nat.testBit_and, testBit_zipMask]
      rcases Nat.lt_or_ge i 32 with hlt | hge
      · by_cases h0 : i = 0
        · subst h0; simp
        · have e1 : decide (i < 32) = true := by simp [hlt]
          have e2 : decide (0 = i) = false := by
            simp only [decide_eq_false_iff_not]
            omega
          have e3 : decide (i ≠ 0) = true := by simp [h0]
          rw [e1, e2, e3, Bool.xor_false]
      · have hbit : archiveC.testBit i = false :=
          Nat.testBit_lt_two_pow
            (lt_of_lt_of_le hC (Nat.pow_le_pow_right (show 0 < 2 by norm_num) hge))
        have : ¬ i < 32 := by omega
        simp [hbit, this]
  · rintro (rfl | rfl) <;> rfl

/-- C3 witness: a fog-volume grid under `BLOSC|ZIP|ACTIVE_MASK` archive
flags has its `ZIP` bit (bit 0) cleared and its `ACTIVE_MASK` bit (bit 1)
kept. -/
theorem setGridCompression_spec_witness :
    Nat.testBit (setGridCompressionWord 7 .fogVolume) 0 = (Nat.testBit 7 0 && decide ((0:Nat) ≠ 0)) ∧
    Nat.testBit (setGridCompressionWord 7 .fogVolume) 1 = (Nat.testBit 7 1 && decide ((1:Nat) ≠ 0)) :=
  ⟨((setGridCompression_spec 7 .fogVolume
      { metaSlot := none, gridClassW := 0, backgroundW := none,
        dataCompressionW := 0, fileVersionW := 224, nextPtr := 0,
        outWords := [], trace := [] } (by norm_num)).2.2.1 (Or.inr rfl)) 0,
   ((setGridCompression_spec 7 .fogVolume
      { metaSlot := none, gridClassW := 0, backgroundW := none,
        dataCompressionW := 0, fileVersionW := 224, nextPtr := 0,
        outWords := [], trace := [] } (by norm_num)).2.2.1 (Or.inr rfl)) 1⟩

/-- C1: on every exit path of a per-grid read (`Archive::readGrid`,
`doReadGrid`) or write (`Archive::writeGrid`,
`Archive::writeGridInstance`) — including exits caused by a collaborator
throwing, for any failure oracle — the stream's file-level
`StreamMetadata` pointer slot equals its value on entry. -/
theorem streamMetadata_slot_restored (fail : Ev → Bool) (isInst : Bool)
    (gridCls : Nat) (seekable : Bool) (cls : GridClass) (archiveC : Nat)
    (c : Nat) (s : StreamSt) :
    (doReadGrid fail isInst gridCls s).1.metaSlot = s.metaSlot ∧
    (readGrid fail isInst gridCls c s).1.metaSlot = s.metaSlot ∧
    (writeGrid fail seekable cls archiveC s).1.metaSlot = s.metaSlot ∧
    (writeGridInstance fail seekable cls archiveC s).1.metaSlot = s.metaSlot := by
  have hread : ∀ s0 : StreamSt, (doReadGrid fail isInst gridCls s0).1.metaSlot = s0.metaSlot := by
    intro s0
    rcases h : doReadGridBody fail isInst gridCls s0 with ⟨s1, r⟩
    simp [doReadGrid, h]
  refine ⟨hread s, ?_, ?_, ?_⟩
  · unfold readGrid readGridCompression emit
    dsimp only
    split_ifs <;> simp [hread]
  · rcases h : writeGridBody fail seekable cls archiveC s with ⟨s1, r⟩
    simp [writeGrid, h]
  · simp only [writeGridInstance, emit, setGridCompressionSt]
    split_ifs <;> rfl

/-- C5: the order of the payload reads performed by `doReadGrid`.  For
format versions at least `GRID_INSTANCING` the transform is read first
and topology and buffers follow only for non-instance descriptors; for
older versions topology is read first, then the transform, then buffers,
regardless of the instance flag.  In every run (failing ones included)
the emitted reads are a prefix of that order, and a successful run emits
it exactly. -/
theorem doReadGrid_read_order (fail : Ev → Bool) (isInst : Bool)
    (gridCls : Nat) (s : StreamSt) :
    (∃ t : List Ev,
      (doReadGrid fail isInst gridCls s).1.trace = s.trace ++ t ∧
      t <+: (if OPENVDB_FILE_VERSION_GRID_INSTANCING ≤ s.fileVersionW then
               .readMeta :: .readTransform ::
                 (if isInst then [] else [.readTopology, .readBuffers])
             else [.readMeta, .readTopology, .readTransform, .readBuffers])) ∧
    ((doReadGrid fail isInst gridCls s).2 = .ok () →
      (doReadGrid fail isInst gridCls s).1.trace = s.trace ++
        (if OPENVDB_FILE_VERSION_GRID_INSTANCING ≤ s.fileVersionW then
           .readMeta :: .readTransform ::
             (if isInst then [] else [.readTopology, .readBuffers])
         else [.readMeta, .readTopology, .readTransform, .readBuffers])) := by
  by_cases hv : OPENVDB_FILE_VERSION_GRID_INSTANCING ≤ s.fileVersionW
  · by_cases h1 : fail Ev.readMeta
    · refine ⟨⟨[Ev.readMeta], ?_, ?_⟩, ?_⟩
      · simp [doReadGrid, doReadGridBody, emit, h1, hv]
      · cases isInst <;> simp [hv]
      · intro hok
        simp [doReadGrid, doReadGridBody, emit, h1, hv] at hok
    · by_cases h2 : fail Ev.readTransform
      · refine ⟨⟨[Ev.readMeta, Ev.readTransform], ?_, ?_⟩, ?_⟩
        · simp [doReadGrid, doReadGridBody, emit, h1, h2, hv]
        · cases isInst <;> simp [hv]
        · intro hok
          simp [doReadGrid, doReadGridBody, emit, h1, h2, hv] at hok
      · by_cases hi : isInst
        · refine ⟨⟨[Ev.readMeta, Ev.readTransform], ?_, ?_⟩, ?_⟩
          · simp [doReadGrid, doReadGridBody, emit, h1, h2, hv, hi]
          · simp [hv, hi]
          · intro hok
            simp [doReadGrid, doReadGridBody, emit, h1, h2, hv, hi]
        · by_cases h3 : fail Ev.readTopology
          · refine ⟨⟨[Ev.readMeta, Ev.readTransform, Ev.readTopology], ?_, ?_⟩, ?_⟩
            · simp [doReadGrid, doReadGridBody, emit, h1, h2, h3, hv, hi]
            · simp [hv, hi]
            · intro hok
              simp [doReadGrid, doReadGridBody, emit, h1, h2, h3, hv, hi] at hok
          · by_cases h4 : fail Ev.readBuffers
            · refine ⟨⟨[Ev.readMeta, Ev.readTransform, Ev.readTopology,
                  Ev.readBuffers], ?_, ?_⟩, ?_⟩
              · simp [doReadGrid, doReadGridBody, emit, h1, h2, h3, h4, hv, hi]
              · simp [hv, hi]
              · intro hok
                simp [doReadGrid, doReadGridBody, emit, h1, h2, h3, h4, hv, hi] at hok
            · refine ⟨⟨[Ev.readMeta, Ev.readTransform, Ev.readTopology,
                  Ev.readBuffers], ?_, ?_⟩, ?_⟩
              · simp [doReadGrid, doReadGridBody, emit, h1, h2, h3, h4, hv, hi]
              · simp [hv, hi]
              · intro hok
                simp [doReadGrid, doReadGridBody, emit, h1, h2, h3, h4, hv, hi]
  · by_cases h1 : fail Ev.readMeta
    · refine ⟨⟨[Ev.readMeta], ?_, ?_⟩, ?_⟩
      · simp [doReadGrid, doReadGridBody, emit, h1, hv]
      · simp [hv]
      · intro hok
        simp [doReadGrid, doReadGridBody, emit, h1, hv] at hok
    · by_cases h2 : fail Ev.readTopology
      · refine ⟨⟨[Ev.readMeta, Ev.readTopology], ?_, ?_⟩, ?_⟩
        · simp [doReadGrid, doReadGridBody, emit, h1, h2, hv]
        · simp [hv]
        · intro hok
          simp [doReadGrid, doReadGridBody, emit, h1, h2, hv] at hok
      · by_cases h3 : fail Ev.readTransform
        · refine ⟨⟨[Ev.readMeta, Ev.readTopology, Ev.readTransform], ?_, ?_⟩, ?_⟩
          · simp [doReadGrid, doReadGridBody, emit, h1, h2, h3, hv]
          · simp [hv]
          · intro hok
            simp [doReadGrid, doReadGridBody, emit, h1, h2, h3, hv] at hok
        · by_cases h4 : fail Ev.readBuffers
          · refine ⟨⟨[Ev.readMeta, Ev.readTopology, Ev.readTransform,
                Ev.readBuffers], ?_, ?_⟩, ?_⟩
            · simp [doReadGrid, doReadGridBody, emit, h1, h2, h3, h4, hv]
            · simp [hv]
            · intro hok
              simp [doReadGrid, doReadGridBody, emit, h1, h2, h3, h4, hv] at hok
          · refine ⟨⟨[Ev.readMeta, Ev.readTopology, Ev.readTransform,
                Ev.readBuffers], ?_, ?_⟩, ?_⟩
            · simp [doReadGrid, doReadGridBody, emit, h1, h2, h3, h4, hv]
            · simp [hv]
            · intro hok
              simp [doReadGrid, doReadGridBody, emit, h1, h2, h3, h4, hv]

/-- C5 witness: a successful new-layout read of a non-instance grid
(format version 224) performs metadata, transform, topology, buffers in
that order. -/
theorem doReadGrid_read_order_witness :
    (doReadGrid (fun _ => false) false 0
      { metaSlot := none, gridClassW := 0, backgroundW := none,
        dataCompressionW := 0, fileVersionW := 224, nextPtr := 0,
        outWords := [], trace := [] }).1.trace =
      [Ev.readMeta, Ev.readTransform, Ev.readTopology, Ev.readBuffers] :=
  (doReadGrid_read_order (fun _ => false) false 0
      { metaSlot := none, gridClassW := 0, backgroundW := none,
        dataCompressionW := 0, fileVersionW := 224, nextPtr := 0,
        outWords := [], trace := [] }).2 rfl

/-- C2: in the `Archive::write` grid loop, a non-null grid is written as
an instance — its descriptor carrying the already-written grid's unique
name as instance parent and its payload going through
`Archive::writeGridInstance` — exactly when instancing is enabled, its
tree pointer is found in the tree → descriptor map, and the stored
descriptor's half-float flag equals the grid's; in every other case it is
written as a primary grid and its tree pointer is recorded in the map. -/
theorem write_instancing_decision (enable : Bool) (counts : List (String × Nat))
    (st : WState) (g : WGrid) :
    (∀ d, tmLookup st.treeMap g.treeId = some d → d.half = g.half → enable = true →
       writeOneGrid enable counts st g =
         { st with
             uniqueNames := st.uniqueNames ++
               [chooseUniqueName counts st.uniqueNames g.name],
             written := st.written ++
               [({ uniqueName := chooseUniqueName counts st.uniqueNames g.name,
                   gridType := g.gtype, half := g.half,
                   instanceParentName := d.uniqueName }, .asInstance)] }) ∧
    ((¬ ∃ d, tmLookup st.treeMap g.treeId = some d ∧ d.half = g.half ∧ enable = true) →
       writeOneGrid enable counts st g =
         { st with
             uniqueNames := st.uniqueNames ++
               [chooseUniqueName counts st.uniqueNames g.name],
             written := st.written ++
               [({ uniqueName := chooseUniqueName counts st.uniqueNames g.name,
                   gridType := g.gtype, half := g.half,
                   instanceParentName := "" }, .asPrimary)],
             treeMap := tmInsert st.treeMap g.treeId
               { uniqueName := chooseUniqueName counts st.uniqueNames g.name,
                 gridType := g.gtype, half := g.half,
                 instanceParentName := "" } }) := by
  constructor
  · intro d hd hhalf hen
    subst hen
    simp only [writeOneGrid, hd, true_and, beq_iff_eq, hhalf, if_pos, Bool.true_and,
      decide_eq_true_eq]
  · intro hno
    rcases hd : tmLookup st.treeMap g.treeId with _ | d
    · simp only [writeOneGrid, hd]
    · have hfalse : (enable && (d.half == g.half)) = false := by
        cases enable
        · simp
        · have hb : (d.half == g.half) = false := by
            cases hb : (d.half == g.half)
            · rfl
            · exact absurd ⟨d, hd, by simpa using hb, rfl⟩ hno
          simp [hb]
      simp only [writeOneGrid, hd, hfalse, Bool.false_eq_true, if_false]

/-- C2 witness: with instancing enabled and a second grid sharing tree
pointer 5 and the half-float flag of the already-written grid, the
second grid is written as an instance of the first. -/
theorem write_instancing_decision_witness :
    writeOneGrid true []
      { treeMap := [(5, { uniqueName := "a", gridType := "Tree_float",
                          half := false, instanceParentName := "" })],
        uniqueNames := ["a"], written := [] }
      { name := "b", gtype := "Tree_float", half := false, treeId := 5 } =
      { treeMap := [(5, { uniqueName := "a", gridType := "Tree_float",
                          half := false, instanceParentName := "" })],
        uniqueNames := ["a", "b"],
        written := [({ uniqueName := "b", gridType := "Tree_float",
                       half := false, instanceParentName := "a" }, .asInstance)] } :=
  (write_instancing_decision true []
      { treeMap := [(5, { uniqueName := "a", gridType := "Tree_float",
                          half := false, instanceParentName := "" })],
        uniqueNames := ["a"], written := [] }
      { name := "b", gtype := "Tree_float", half := false, treeId := 5 }).1
    { uniqueName := "a", gridType := "Tree_float", half := false,
      instanceParentName := "" } rfl rfl rfl

/-- C7: `Archive::connectInstance`, applied to an instance descriptor
whose unique name maps to a non-null grid, throws the
missing-instance-parent error exactly when the instance-parent name is
absent from the name → grid map; when a (non-null) parent is present,
the instance grid's tree pointer becomes the parent's tree pointer if
instancing is enabled, and a freshly allocated deep copy of the parent's
tree otherwise. -/
theorem connectInstance_spec (enable : Bool) (gd : GDescr)
    (grids : List (String × Option RGrid)) (heap : TreeHeap) (g : RGrid)
    (hinst : gd.isInst = true)
    (hchild : ngLookup grids gd.uniqueName = some (some g)) :
    (connectInstance enable gd grids heap = .error .missingInstanceParent ↔
       ngLookup grids gd.instanceParentName = none) ∧
    (∀ parent : RGrid,
       ngLookup grids gd.instanceParentName = some (some parent) →
       (enable = true →
          connectInstance enable gd grids heap =
            .ok (.connected { g with treeId := parent.treeId } heap)) ∧
       (enable = false →
          ∃ g1 h1, connectInstance enable gd grids heap = .ok (.connected g1 h1) ∧
            g1.treeId = heap.next ∧
            thLookup h1.contents g1.treeId =
              some ((thLookup heap.contents parent.treeId).getD 0))) := by
  have hne : grids ≠ [] := by
    intro h
    rw [h] at hchild
    simp [ngLookup] at hchild
  have hcond : ¬ (¬ gd.isInst ∨ grids = []) := by
    simp [hinst, hne]
  constructor
  · rcases hp : ngLookup grids gd.instanceParentName with _ | parentPtr
    · simp only [connectInstance, hcond, if_false, hchild, hp]
    · rcases parentPtr with _ | parent
      · simp only [connectInstance, hcond, if_false, hchild, hp]
        constructor
        · intro h
          exact absurd h (by simp)
        · intro h
          exact absurd h (by simp)
      · simp only [connectInstance, hcond, if_false, hchild, hp]
        constructor
        · intro h
          split at h <;> simp at h
        · intro h
          simp at h
  · intro parent hp
    constructor
    · intro hen
      subst hen
      simp only [connectInstance, hcond, if_false, hchild, hp, if_pos]
    · intro hen
      subst hen
      refine ⟨{ g with treeId := heap.next },
        { contents := (heap.next, (thLookup heap.contents parent.treeId).getD 0)
            :: heap.contents,
          next := heap.next + 1 }, ?_, rfl, ?_⟩
      · simp only [connectInstance, hcond, if_false, hchild, hp, Bool.false_eq_true,
          thCopy]
      · simp [thLookup]

/-- C7 witness: an instance descriptor whose parent name appears nowhere
in the name → grid map makes `connectInstance` fail with the
missing-instance-parent error. -/
theorem connectInstance_spec_witness :
    connectInstance true
      { uniqueName := "child", gridType := "Tree_float", half := false,
        instanceParentName := "parent" }
      [("child", some { treeId := 3 })] { contents := [], next := 0 } =
      .error .missingInstanceParent :=
  (connectInstance_spec true
      { uniqueName := "child", gridType := "Tree_float", half := false,
        instanceParentName := "parent" }
      [("child", some { treeId := 3 })] { contents := [], next := 0 }
      { treeId := 3 } rfl rfl).1.mpr rfl

/-! ### Header step lemmas -/

/-- Inversion of `hseq` on a successful result. -/
lemma hseq_ok_iff {α : Type} (r : Archive × Except IoErr (List Nat))
    (k : Archive → List Nat → Archive × Except IoErr α) (a1 : Archive) (v : α) :
    hseq r k = (a1, .ok v) ↔
      ∃ a0 bs0, r = (a0, .ok bs0) ∧ k a0 bs0 = (a1, .ok v) := by
  rcases r with ⟨a0, r0⟩
  cases r0 with
  | error e => simp [hseq]
  | ok bs0 =>
      show k a0 bs0 = (a1, .ok v) ↔ _
      constructor
      · intro h
        exact ⟨a0, bs0, rfl, h⟩
      · rintro ⟨a0h, bs0h, heq, hk⟩
        injection heq with h1 h2
        injection h2 with h2
        subst h1
        subst h2
        exact hk

lemma stepVersion_err (a : Archive) (bs : List Nat) (e : IoErr)
    (h : (stepVersion a bs).2 = .error e) : e = .ioError := by
  unfold stepVersion at h
  dsimp only at h
  repeat' split at h
  all_goals simp_all

lemma stepLibVersion_err (a : Archive) (bs : List Nat) (e : IoErr)
    (h : (stepLibVersion a bs).2 = .error e) : e = .ioError := by
  unfold stepLibVersion at h
  dsimp only at h
  repeat' split at h
  all_goals simp_all

lemma stepOffsets_err (a : Archive) (bs : List Nat) (e : IoErr)
    (h : (stepOffsets a bs).2 = .error e) : e = .ioError := by
  unfold stepOffsets at h
  dsimp only at h
  repeat' split at h
  all_goals simp_all

lemma stepCompression_err (a : Archive) (bs : List Nat) (e : IoErr)
    (h : (stepCompression a bs).2 = .error e) : e = .ioError := by
  unfold stepCompression at h
  dsimp only at h
  repeat' split at h
  all_goals simp_all

lemma uuidReturn_eq (old : List Nat) (a : Archive) (bs : List Nat) :
    uuidReturn old a bs =
      (a, .ok (decide (old = [] ∨ a.mUuid = [] ∨ old ≠ a.mUuid), bs)) := by
  unfold uuidReturn
  by_cases h : old = [] ∨ a.mUuid = []
  · rw [if_pos h]
    have hP : (old = [] ∨ a.mUuid = [] ∨ old ≠ a.mUuid) := by tauto
    simp [hP]
  · rw [if_neg h]
    push_neg at h
    simp [h.1, h.2]

lemma stepUuid_err (a : Archive) (bs : List Nat) (e : IoErr)
    (h : (stepUuid a bs).2 = .error e) : e = .ioError := by
  unfold stepUuid at h
  dsimp only at h
  repeat' split at h
  all_goals (try rw [uuidReturn_eq] at h)
  all_goals simp_all

lemma stepMagic_ok (a : Archive) (bs : List Nat) (a1 : Archive) (bs1 : List Nat)
    (h : stepMagic a bs = (a1, .ok bs1)) : a1 = a := by
  unfold stepMagic at h
  repeat' split at h
  all_goals simp_all

lemma stepVersion_ok (a : Archive) (bs : List Nat) (a1 : Archive) (bs1 : List Nat)
    (h : stepVersion a bs = (a1, .ok bs1)) :
    a1.mUuid = a.mUuid ∧ a1.mCompression = a.mCompression := by
  unfold stepVersion at h
  dsimp only at h
  repeat' split at h
  all_goals simp_all
  all_goals (obtain ⟨h1, h2⟩ := h; subst h1; simp)

lemma stepLibVersion_ok (a : Archive) (bs : List Nat) (a1 : Archive) (bs1 : List Nat)
    (h : stepLibVersion a bs = (a1, .ok bs1)) :
    a1.mUuid = a.mUuid ∧ a1.mCompression = a.mCompression ∧
    a1.mFileVersion = a.mFileVersion := by
  unfold stepLibVersion at h
  dsimp only at h
  repeat' split at h
  all_goals simp_all
  all_goals (obtain ⟨h1, h2⟩ := h; subst h1; simp)

lemma stepOffsets_ok (a : Archive) (bs : List Nat) (a1 : Archive) (bs1 : List Nat)
    (h : stepOffsets a bs = (a1, .ok bs1)) :
    a1.mUuid = a.mUuid ∧ a1.mCompression = a.mCompression ∧
    a1.mFileVersion = a.mFileVersion := by
  unfold stepOffsets at h
  dsimp only at h
  repeat' split at h
  all_goals simp_all
  all_goals (obtain ⟨h1, h2⟩ := h; subst h1; simp)

lemma stepCompression_ok (a : Archive) (bs : List Nat) (a1 : Archive) (bs1 : List Nat)
    (h : stepCompression a bs = (a1, .ok bs1)) :
    a1.mUuid = a.mUuid ∧ a1.mFileVersion = a.mFileVersion := by
  unfold stepCompression at h
  dsimp only at h
  repeat' split at h
  all_goals simp_all
  all_goals (obtain ⟨h1, h2⟩ := h; subst h1; simp)

lemma stepUuid_ok (a : Archive) (bs : List Nat) (a1 : Archive) (ret : Bool)
    (bs1 : List Nat) (h : stepUuid a bs = (a1, .ok (ret, bs1))) :
    a1.mFileVersion = a.mFileVersion ∧ a1.mCompression = a.mCompression ∧
    (ret = true ↔ (a.mUuid = [] ∨ a1.mUuid = [] ∨ a.mUuid ≠ a1.mUuid)) := by
  unfold stepUuid at h
  dsimp only at h
  repeat' split at h
  all_goals (try rw [uuidReturn_eq] at h)
  all_goals simp_all
  all_goals (obtain ⟨h1, h2⟩ := h; subst h1; simp_all)
  all_goals (rw [← h2.1]; simp)

/-- A successful run of the post-magic header steps factors through the
compression and UUID steps, and the UUID seen by the UUID step as the
"old" value is the archive's UUID on entry. -/
lemma readHeaderRest_ok_decomp (a : Archive) (bs : List Nat) (a1 : Archive)
    (ret : Bool) (bs1 : List Nat)
    (h : readHeaderRest a bs = (a1, .ok (ret, bs1))) :
    ∃ a4 bs4 a5 bs5,
      stepCompression a4 bs4 = (a5, .ok bs5) ∧
      stepUuid a5 bs5 = (a1, .ok (ret, bs1)) ∧
      a5.mUuid = a.mUuid ∧ a4.mUuid = a.mUuid := by
  unfold readHeaderRest at h
  obtain ⟨a2, bs2, h2, h⟩ := (hseq_ok_iff _ _ _ _).1 h
  obtain ⟨a3, bs3, h3, h⟩ := (hseq_ok_iff _ _ _ _).1 h
  obtain ⟨a4, bs4, h4, h⟩ := (hseq_ok_iff _ _ _ _).1 h
  obtain ⟨a5, bs5, h5, h⟩ := (hseq_ok_iff _ _ _ _).1 h
  have e2 := stepVersion_ok _ _ _ _ h2
  have e3 := stepLibVersion_ok _ _ _ _ h3
  have e4 := stepOffsets_ok _ _ _ _ h4
  have e5 := stepCompression_ok _ _ _ _ h5
  refine ⟨a4, bs4, a5, bs5, h5, h, ?_, ?_⟩
  · rw [e5.1, e4.1, e3.1, e2.1]
  · rw [e4.1, e3.1, e2.1]

/-- C8: `Archive::readHeader` returns `true` exactly when the UUID read
from the stream differs from the archive's UUID prior to the call, or at
least one of the two is empty. -/
theorem readHeader_uuid_result (a : Archive) (bs : List Nat) (a1 : Archive)
    (ret : Bool) (bs1 : List Nat)
    (h : readHeader a bs = (a1, .ok (ret, bs1))) :
    ret = true ↔ (a.mUuid = [] ∨ a1.mUuid = [] ∨ a.mUuid ≠ a1.mUuid) := by
  unfold readHeader at h
  obtain ⟨am, bsm, hm, hrest⟩ := (hseq_ok_iff _ _ _ _).1 h
  obtain rfl := stepMagic_ok _ _ _ _ hm
  obtain ⟨a4, bs4, a5, bs5, hc, hu, hu5, _⟩ :=
    readHeaderRest_ok_decomp _ _ _ _ _ hrest
  have := (stepUuid_ok _ _ _ _ _ hu).2.2
  rwa [hu5] at this

/-- C8 witness: reading a valid version-224 header with 36 `'A'` UUID
bytes into an archive whose prior UUID is blank returns `true`. -/
theorem readHeader_uuid_result_witness :
    (true = true ↔ (([] : List Nat) = [] ∨
       List.replicate 36 65 = ([] : List Nat) ∨
       ([] : List Nat) ≠ List.replicate 36 65)) :=
  readHeader_uuid_result
    { mFileVersion := 224, mLibMajor := 12, mLibMinor := 0, mUuid := [],
      mInputHasGridOffsets := false, mEnableInstancing := true,
      mCompression := 6, mEnableGridStats := true }
    ([0x20, 0x42, 0x44, 0x56, 0, 0, 0, 0] ++
      [224, 0, 0, 0] ++ [12, 0, 0, 0] ++ [0, 0, 0, 0] ++ [1] ++
      List.replicate 36 65)
    { mFileVersion := 224, mLibMajor := 12, mLibMinor := 0,
      mUuid := List.replicate 36 65, mInputHasGridOffsets := true,
      mEnableInstancing := true, mCompression := 6, mEnableGridStats := true }
    true [] (by rfl)

/-- Full characterization of the compression step of
`Archive::readHeader`. -/
lemma stepCompression_char (a : Archive) (bs : List Nat) :
    (¬ (OPENVDB_FILE_VERSION_SELECTIVE_COMPRESSION ≤ a.mFileVersion ∧
          a.mFileVersion < OPENVDB_FILE_VERSION_NODE_MASK_COMPRESSION) →
       stepCompression a bs =
         ({ a with mCompression :=
              if a.mFileVersion < OPENVDB_FILE_VERSION_BLOSC_COMPRESSION then
                COMPRESS_ZIP ||| COMPRESS_ACTIVE_MASK
              else DEFAULT_COMPRESSION_FLAGS }, .ok bs)) ∧
    ((OPENVDB_FILE_VERSION_SELECTIVE_COMPRESSION ≤ a.mFileVersion ∧
          a.mFileVersion < OPENVDB_FILE_VERSION_NODE_MASK_COMPRESSION) →
       (bs = [] →
          stepCompression a bs =
            ({ a with mCompression := COMPRESS_ZIP ||| COMPRESS_ACTIVE_MASK },
             .error .ioError)) ∧
       (∀ b rest, bs = b :: rest →
          stepCompression a bs =
            ({ a with mCompression :=
                 if b ≠ 0 then COMPRESS_ZIP else COMPRESS_NONE }, .ok rest))) := by
  have hblosc : ∀ h : (OPENVDB_FILE_VERSION_SELECTIVE_COMPRESSION ≤ a.mFileVersion ∧
      a.mFileVersion < OPENVDB_FILE_VERSION_NODE_MASK_COMPRESSION),
      a.mFileVersion < OPENVDB_FILE_VERSION_BLOSC_COMPRESSION := by
    intro h
    unfold OPENVDB_FILE_VERSION_NODE_MASK_COMPRESSION at h
    unfold OPENVDB_FILE_VERSION_BLOSC_COMPRESSION
    omega
  constructor
  · intro hnr
    unfold stepCompression
    dsimp only
    by_cases hb : a.mFileVersion < OPENVDB_FILE_VERSION_BLOSC_COMPRESSION
    · simp [hb, hnr]
    · simp [hb, hnr]
  · intro hr
    have hb := hblosc hr
    constructor
    · rintro rfl
      unfold stepCompression
      dsimp only
      simp [hb, hr.1, hr.2]
    · rintro b rest rfl
      unfold stepCompression
      dsimp only
      simp [hb, hr.1, hr.2]

/-- C4: the compression flags established by a successful
`Archive::readHeader` are determined by the file version read: below the
Blosc version (and outside the selective-compression window) they are
`{ZIP, ACTIVE_MASK}`; inside `[SELECTIVE_COMPRESSION,
NODE_MASK_COMPRESSION)` one `isCompressed` byte is read and they become
`{ZIP}` when it is nonzero and `{NONE}` when it is zero; from the Blosc
version on they are the library defaults. -/
theorem readHeader_compression_policy :
    (∀ (a : Archive) (bs : List Nat),
      (¬ (OPENVDB_FILE_VERSION_SELECTIVE_COMPRESSION ≤ a.mFileVersion ∧
            a.mFileVersion < OPENVDB_FILE_VERSION_NODE_MASK_COMPRESSION) →
         stepCompression a bs =
           ({ a with mCompression :=
                if a.mFileVersion < OPENVDB_FILE_VERSION_BLOSC_COMPRESSION then
                  COMPRESS_ZIP ||| COMPRESS_ACTIVE_MASK
                else DEFAULT_COMPRESSION_FLAGS }, .ok bs)) ∧
      ((OPENVDB_FILE_VERSION_SELECTIVE_COMPRESSION ≤ a.mFileVersion ∧
            a.mFileVersion < OPENVDB_FILE_VERSION_NODE_MASK_COMPRESSION) →
         ∀ b rest, bs = b :: rest →
           stepCompression a bs =
             ({ a with mCompression :=
                  if b ≠ 0 then COMPRESS_ZIP else COMPRESS_NONE }, .ok rest))) ∧
    (∀ (a : Archive) (bs : List Nat) (a1 : Archive) (ret : Bool) (bs1 : List Nat),
       readHeader a bs = (a1, .ok (ret, bs1)) →
       (¬ (OPENVDB_FILE_VERSION_SELECTIVE_COMPRESSION ≤ a1.mFileVersion ∧
             a1.mFileVersion < OPENVDB_FILE_VERSION_NODE_MASK_COMPRESSION) →
          a1.mCompression =
            if a1.mFileVersion < OPENVDB_FILE_VERSION_BLOSC_COMPRESSION then
              COMPRESS_ZIP ||| COMPRESS_ACTIVE_MASK
            else DEFAULT_COMPRESSION_FLAGS) ∧
       ((OPENVDB_FILE_VERSION_SELECTIVE_COMPRESSION ≤ a1.mFileVersion ∧
             a1.mFileVersion < OPENVDB_FILE_VERSION_NODE_MASK_COMPRESSION) →
          a1.mCompression = COMPRESS_ZIP ∨ a1.mCompression = COMPRESS_NONE)) := by
  constructor
  · intro a bs
    exact ⟨(stepCompression_char a bs).1, fun hr => ((stepCompression_char a bs).2 hr).2⟩
  · intro a bs a1 ret bs1 h
    unfold readHeader at h
    obtain ⟨am, bsm, hm, hrest⟩ := (hseq_ok_iff _ _ _ _).1 h
    obtain ⟨a4, bs4, a5, bs5, hc, hu, _, _⟩ :=
      readHeaderRest_ok_decomp _ _ _ _ _ hrest
    have hufv := (stepUuid_ok _ _ _ _ _ hu).1
    have hucomp := (stepUuid_ok _ _ _ _ _ hu).2.1
    have hcfv := (stepCompression_ok _ _ _ _ hc).2
    by_cases hr : OPENVDB_FILE_VERSION_SELECTIVE_COMPRESSION ≤ a4.mFileVersion ∧
        a4.mFileVersion < OPENVDB_FILE_VERSION_NODE_MASK_COMPRESSION
    · cases bs4 with
      | nil =>
          rw [((stepCompression_char a4 []).2 hr).1 rfl] at hc
          exact absurd hc (by simp)
      | cons b rest =>
          rw [((stepCompression_char a4 (b :: rest)).2 hr).2 b rest rfl] at hc
          have ha5 : a5 = { a4 with mCompression :=
              if b ≠ 0 then COMPRESS_ZIP else COMPRESS_NONE } := by
            injection hc with h1 h2
            exact h1.symm
          have hfv1 : a1.mFileVersion = a4.mFileVersion := by
            rw [hufv, hcfv]
          constructor
          · intro hnr
            exact absurd (by rw [hfv1]; exact hr) hnr
          · intro _
            rw [hucomp, ha5]
            by_cases hb0 : b ≠ 0
            · left
              simp [hb0]
            · right
              simp [hb0]
    · rw [(stepCompression_char a4 bs4).1 hr] at hc
      have ha5 : a5 = { a4 with mCompression :=
          if a4.mFileVersion < OPENVDB_FILE_VERSION_BLOSC_COMPRESSION then
            COMPRESS_ZIP ||| COMPRESS_ACTIVE_MASK
          else DEFAULT_COMPRESSION_FLAGS } := by
        injection hc with h1 h2
        exact h1.symm
      have hfv1 : a1.mFileVersion = a4.mFileVersion := by
        rw [hufv, hcfv]
      constructor
      · intro _
        rw [hucomp, ha5, hfv1]
      · intro hinr
        exact absurd (by rw [hfv1] at hinr; exact hinr) hr

/-- C4 witness: a version-221 header (inside the selective-compression
window) with a nonzero `isCompressed` byte yields exactly the `{ZIP}`
flag set. -/
theorem readHeader_compression_policy_witness :
    stepCompression
      { mFileVersion := 221, mLibMajor := 0, mLibMinor := 0, mUuid := [],
        mInputHasGridOffsets := true, mEnableInstancing := true,
        mCompression := 6, mEnableGridStats := true } [1] =
      ({ mFileVersion := 221, mLibMajor := 0, mLibMinor := 0, mUuid := [],
         mInputHasGridOffsets := true, mEnableInstancing := true,
         mCompression := COMPRESS_ZIP, mEnableGridStats := true }, .ok []) :=
  (readHeader_compression_policy.1
      { mFileVersion := 221, mLibMajor := 0, mLibMinor := 0, mUuid := [],
        mInputHasGridOffsets := true, mEnableInstancing := true,
        mCompression := 6, mEnableGridStats := true } [1]).2
    (by constructor <;> decide) 1 [] rfl

/-- Error propagation through `hseq`: if both sides only ever fail with
`ioError`, so does the composition. -/
lemma hseq_err_kind {α : Type} (r : Archive × Except IoErr (List Nat))
    (k : Archive → List Nat → Archive × Except IoErr α)
    (hr : ∀ e0, r.2 = .error e0 → e0 = .ioError)
    (hk : ∀ a0 bs0 e0, (k a0 bs0).2 = .error e0 → e0 = .ioError)
    (e : IoErr) (h : (hseq r k).2 = .error e) : e = .ioError := by
  rcases r with ⟨a0, r0⟩
  cases r0 with
  | error e1 =>
      have : e1 = e := by simpa [hseq] using h
      exact this ▸ hr e1 rfl
  | ok bs0 =>
      exact hk a0 bs0 e (by simpa [hseq] using h)

/-- Every failure of the post-magic header steps is an `ioError`; in
particular none of them raises `notAVdbFile`. -/
lemma readHeaderRest_err (a : Archive) (bs : List Nat) (e : IoErr)
    (h : (readHeaderRest a bs).2 = .error e) : e = .ioError := by
  unfold readHeaderRest at h
  refine hseq_err_kind _ _ (fun e0 he => stepVersion_err a bs e0 he) ?_ e h
  intro a2 bs2 e0 h0
  refine hseq_err_kind _ _ (fun e1 he => stepLibVersion_err a2 bs2 e1 he) ?_ e0 h0
  intro a3 bs3 e1 h1
  refine hseq_err_kind _ _ (fun e2 he => stepOffsets_err a3 bs3 e2 he) ?_ e1 h1
  intro a4 bs4 e2 h2
  refine hseq_err_kind _ _ (fun e3 he => stepCompression_err a4 bs4 e3 he) ?_ e2 h2
  intro a5 bs5 e3 h3
  exact stepUuid_err a5 bs5 e3 h3

/-- C6: `Archive::readHeader` fails with the not-a-VDB-file error exactly
when the 64-bit word formed from the first eight bytes of the stream
differs from `OPENVDB_MAGIC`, and in that case it returns with the
archive completely unmodified (no version, offset-flag, compression or
UUID state has been assigned). -/
theorem readHeader_magic_check (a : Archive) (b0 b1 b2 b3 b4 b5 b6 b7 : Nat)
    (rest : List Nat) :
    ((readHeader a (b0 :: b1 :: b2 :: b3 :: b4 :: b5 :: b6 :: b7 :: rest)).2 =
        .error .notAVdbFile ↔
      b0 + 256 * b1 + 65536 * b2 + 16777216 * b3
        + 4294967296 * (b4 + 256 * b5 + 65536 * b6 + 16777216 * b7) ≠
        OPENVDB_MAGIC) ∧
    (b0 + 256 * b1 + 65536 * b2 + 16777216 * b3
        + 4294967296 * (b4 + 256 * b5 + 65536 * b6 + 16777216 * b7) ≠
        OPENVDB_MAGIC →
      readHeader a (b0 :: b1 :: b2 :: b3 :: b4 :: b5 :: b6 :: b7 :: rest) =
        (a, .error .notAVdbFile)) := by
  by_cases hm : b0 + 256 * b1 + 65536 * b2 + 16777216 * b3
      + 4294967296 * (b4 + 256 * b5 + 65536 * b6 + 16777216 * b7) = OPENVDB_MAGIC
  · have hstep : stepMagic a (b0 :: b1 :: b2 :: b3 :: b4 :: b5 :: b6 :: b7 :: rest) =
        (a, .ok rest) := by
      unfold stepMagic
      simp [readU64LE, hm]
    constructor
    · rw [readHeader, hstep]
      constructor
      · intro h
        have : IoErr.notAVdbFile = IoErr.ioError :=
          readHeaderRest_err a rest _ (by simpa [hseq] using h)
        exact absurd this (by simp)
      · intro h
        exact absurd hm h
    · intro h
      exact absurd hm h
  · have hstep : stepMagic a (b0 :: b1 :: b2 :: b3 :: b4 :: b5 :: b6 :: b7 :: rest) =
        (a, .error .notAVdbFile) := by
      unfold stepMagic
      simp [readU64LE, hm]
    rw [readHeader, hstep]
    constructor
    · simp [hseq, hm]
    · intro _
      simp [hseq]

/-- C6 witness: zeroed magic bytes make `readHeader` fail with the
not-a-VDB-file error, leaving the archive untouched. -/
theorem readHeader_magic_check_witness :
    readHeader
      { mFileVersion := 224, mLibMajor := 12, mLibMinor := 0, mUuid := [],
        mInputHasGridOffsets := false, mEnableInstancing := true,
        mCompression := 6, mEnableGridStats := true }
      [0, 0, 0, 0, 0, 0, 0, 0] =
      ({ mFileVersion := 224, mLibMajor := 12, mLibMinor := 0, mUuid := [],
         mInputHasGridOffsets := false, mEnableInstancing := true,
         mCompression := 6, mEnableGridStats := true }, .error .notAVdbFile) :=
  (readHeader_magic_check
      { mFileVersion := 224, mLibMajor := 12, mLibMinor := 0, mUuid := [],
        mInputHasGridOffsets := false, mEnableInstancing := true,
        mCompression := 6, mEnableGridStats := true }
      0 0 0 0 0 0 0 0 []).2 (by decide)

end OpenVDB
